import Mathlib

/-!
Verification of the trend_to_product pipeline (src/main.py, src/tools/*,
src/storage/*) against its natural-language specification.

The development shallow-embeds the Python code:

* `Json`, `parseValue`, `rawDecode` embed the subset of CPython's
  `json.JSONDecoder.raw_decode` exercised by `_parse_json` (strict mode,
  default hooks).  Strings are represented as lists of Unicode code points
  (`List Nat`) so that lone surrogates produced by `\uXXXX` escapes are
  representable, exactly as in Python.  Numbers keep their source lexeme;
  Python's cross-type numeric equality is modelled exactly on the rationals
  (`pyEqInt`), which agrees with CPython everywhere except float-rounding
  corner cases that no claim touches.
* `parse_json` embeds `main._parse_json`, `criticExtract` the extraction
  part of `main._stage_critic`, `promptIdeaChoice`/`approvalLoop` the two
  human gates, `run_pipeline` the full-run path of `main._run_pipeline`
  (dry-run false), and `recover` embeds `main._recover`.
* The three cited source adapters are embedded as `redditRun`, `phRun`,
  and `twitterRun` over explicit environments standing for `os.getenv`,
  the network, and subprocess results.

Effects (file reads, crew kickoffs, stdin) are passed in explicitly through
environment records; exceptions are values of `Exc` (`SystemExit` is kept
separate because `except Exception` does not catch it).
-/

set_option autoImplicit false
set_option maxRecDepth 8192

namespace TrendToProduct

/-- JSON values as produced by Python's `json` module: strings are sequences
of Unicode code points, numbers keep the matched lexeme (including the
constants `NaN`, `Infinity`, `-Infinity`), objects keep their key/value pairs
in parse order. -/
inductive Json where
  | null
  | bool (b : Bool)
  | num (lexeme : List Char)
  | str (codepoints : List Nat)
  | arr (elems : List Json)
  | obj (members : List (List Nat × Json))

/-- JSON whitespace skipped by the decoder (`json.decoder._ws`: space, tab,
newline, carriage return). -/
def isJsonWs (c : Char) : Bool :=
  c = ' ' ∨ c = '\t' ∨ c = '\n' ∨ c = '\r'

def skipWs (cs : List Char) : List Char :=
  cs.dropWhile isJsonWs

def isDigit (c : Char) : Bool := '0' ≤ c ∧ c ≤ '9'

def isHex (c : Char) : Bool :=
  isDigit c ∨ ('a' ≤ c ∧ c ≤ 'f') ∨ ('A' ≤ c ∧ c ≤ 'F')

def hexVal (c : Char) : Nat :=
  if isDigit c then c.toNat - '0'.toNat
  else if 'a' ≤ c ∧ c ≤ 'f' then c.toNat - 'a'.toNat + 10
  else c.toNat - 'A'.toNat + 10

/-- Whether the input begins with the two characters of a `\u` escape. -/
def startsUEscape : List Char → Bool
  | '\\' :: 'u' :: _ => true
  | _ => false

/-- Body of a JSON string after the opening quote, strict mode
(`json.decoder.py_scanstring`): raw control characters are rejected, the
eight simple escapes and `\uXXXX` are recognised, and a high/low surrogate
pair of consecutive `\u` escapes is combined into one code point; a lone
surrogate is kept as-is. Returns the decoded code points and the input
remaining after the closing quote. -/
def parseStringBody : Nat → List Char → Option (List Nat × List Char)
  | 0, _ => none
  | _ + 1, [] => none
  | _ + 1, '"' :: rest => some ([], rest)
  | fuel + 1, '\\' :: '"' :: rest => (parseStringBody fuel rest).map (fun (s, r) => (34 :: s, r))
  | fuel + 1, '\\' :: '\\' :: rest => (parseStringBody fuel rest).map (fun (s, r) => (92 :: s, r))
  | fuel + 1, '\\' :: '/' :: rest => (parseStringBody fuel rest).map (fun (s, r) => (47 :: s, r))
  | fuel + 1, '\\' :: 'b' :: rest => (parseStringBody fuel rest).map (fun (s, r) => (8 :: s, r))
  | fuel + 1, '\\' :: 'f' :: rest => (parseStringBody fuel rest).map (fun (s, r) => (12 :: s, r))
  | fuel + 1, '\\' :: 'n' :: rest => (parseStringBody fuel rest).map (fun (s, r) => (10 :: s, r))
  | fuel + 1, '\\' :: 'r' :: rest => (parseStringBody fuel rest).map (fun (s, r) => (13 :: s, r))
  | fuel + 1, '\\' :: 't' :: rest => (parseStringBody fuel rest).map (fun (s, r) => (9 :: s, r))
  | fuel + 1, '\\' :: 'u' :: a :: b :: c :: d :: '\\' :: 'u' :: e :: f :: g :: h :: rest =>
    if isHex a ∧ isHex b ∧ isHex c ∧ isHex d then
      let n := ((hexVal a * 16 + hexVal b) * 16 + hexVal c) * 16 + hexVal d
      if 0xd800 ≤ n ∧ n ≤ 0xdbff then
        -- a high surrogate immediately followed by another `\u` escape:
        -- the second escape must itself decode (else the whole string fails)
        if isHex e ∧ isHex f ∧ isHex g ∧ isHex h then
          let m := ((hexVal e * 16 + hexVal f) * 16 + hexVal g) * 16 + hexVal h
          if 0xdc00 ≤ m ∧ m ≤ 0xdfff then
            (parseStringBody fuel rest).map (fun (s, r) =>
              ((0x10000 + ((n - 0xd800) * 1024 + (m - 0xdc00))) :: s, r))
          else
            -- not a low surrogate: keep the lone high surrogate and
            -- reprocess the second escape from scratch
            (parseStringBody fuel ('\\' :: 'u' :: e :: f :: g :: h :: rest)).map
              (fun (s, r) => (n :: s, r))
        else none
      else
        (parseStringBody fuel ('\\' :: 'u' :: e :: f :: g :: h :: rest)).map
          (fun (s, r) => (n :: s, r))
    else none
  | fuel + 1, '\\' :: 'u' :: a :: b :: c :: d :: rest =>
    if isHex a ∧ isHex b ∧ isHex c ∧ isHex d then
      let n := ((hexVal a * 16 + hexVal b) * 16 + hexVal c) * 16 + hexVal d
      if 0xd800 ≤ n ∧ n ≤ 0xdbff then
        -- a second `\u` escape with fewer than four following characters
        -- (the full-pair case is matched above): its decode fails,
        -- failing the whole string
        if startsUEscape rest then none
        else (parseStringBody fuel rest).map (fun (s, r) => (n :: s, r))
      else (parseStringBody fuel rest).map (fun (s, r) => (n :: s, r))
    else none
  | _ + 1, '\\' :: _ => none
  | fuel + 1, c :: rest =>
    if c.toNat < 0x20 then none
    else (parseStringBody fuel rest).map (fun (s, r) => (c.toNat :: s, r))

def takeDigits (cs : List Char) : List Char × List Char :=
  (cs.takeWhile isDigit, cs.dropWhile isDigit)

/-- The number regex of `json.decoder`:
`(-?(?:0|[1-9]\d*))(\.\d+)?([eE][-+]?\d+)?`, maximal munch.  Returns the
matched lexeme and the remaining input. -/
def parseNumber (cs : List Char) : Option (List Char × List Char) :=
  let (sign, cs1) :=
    match cs with
    | '-' :: r => (['-'], r)
    | _ => (([] : List Char), cs)
  let ipart? : Option (List Char × List Char) :=
    match cs1 with
    | '0' :: r => some (['0'], r)
    | c :: r =>
      if '1' ≤ c ∧ c ≤ '9' then
        let (ds, r2) := takeDigits r
        some (c :: ds, r2)
      else none
    | [] => none
  match ipart? with
  | none => none
  | some (ip, r2) =>
    let (fp, r3) :=
      match r2 with
      | '.' :: r2a =>
        let (ds, r2b) := takeDigits r2a
        if ds = [] then (([] : List Char), r2) else ('.' :: ds, r2b)
      | _ => (([] : List Char), r2)
    let (ep, r4) :=
      match r3 with
      | e :: r3a =>
        if e = 'e' ∨ e = 'E' then
          let (sgn, r3b) :=
            match r3a with
            | '+' :: r => (['+'], r)
            | '-' :: r => (['-'], r)
            | _ => (([] : List Char), r3a)
          let (ds, r3c) := takeDigits r3b
          if ds = [] then (([] : List Char), r3) else (e :: sgn ++ ds, r3c)
        else (([] : List Char), r3)
      | [] => (([] : List Char), r3)
    some (sign ++ ip ++ fp ++ ep, r4)

mutual

/-- One step of `json.scanner.py_make_scanner`'s `_scan_once` together with
the object/array member loops of `json.decoder.JSONObject`/`JSONArray`.
First argument is fuel; `rawDecode` supplies enough fuel that exhaustion is
unreachable (every recursive call is preceded by at least one consumed
input character, and at most two calls are made per character). -/
def parseValue : Nat → List Char → Option (Json × List Char)
  | 0, _ => none
  | fuel + 1, '"' :: cs => (parseStringBody fuel cs).map (fun (s, r) => (.str s, r))
  | fuel + 1, '{' :: cs =>
    (match skipWs cs with
     | '}' :: r => some (.obj [], r)
     | cs1 => parseMembers fuel cs1 [])
  | fuel + 1, '[' :: cs =>
    (match skipWs cs with
     | ']' :: r => some (.arr [], r)
     | cs1 => parseElems fuel cs1 [])
  | _ + 1, 'n' :: 'u' :: 'l' :: 'l' :: cs => some (.null, cs)
  | _ + 1, 't' :: 'r' :: 'u' :: 'e' :: cs => some (.bool true, cs)
  | _ + 1, 'f' :: 'a' :: 'l' :: 's' :: 'e' :: cs => some (.bool false, cs)
  | _ + 1, cs =>
    match parseNumber cs with
    | some (lex, r) => some (.num lex, r)
    | none =>
      match cs with
      | 'N' :: 'a' :: 'N' :: r => some (.num ['N', 'a', 'N'], r)
      | 'I' :: 'n' :: 'f' :: 'i' :: 'n' :: 'i' :: 't' :: 'y' :: r =>
        some (.num "Infinity".data, r)
      | '-' :: 'I' :: 'n' :: 'f' :: 'i' :: 'n' :: 'i' :: 't' :: 'y' :: r =>
        some (.num "-Infinity".data, r)
      | _ => none

/-- Member loop of `JSONObject` (strict): positioned at a key's opening
quote; whitespace around `:`/`,` is skipped, a non-quote after `,` fails. -/
def parseMembers : Nat → List Char → List (List Nat × Json) →
    Option (Json × List Char)
  | 0, _, _ => none
  | fuel + 1, '"' :: cs, acc =>
    match parseStringBody fuel cs with
    | none => none
    | some (key, r1) =>
      match skipWs r1 with
      | ':' :: r2 =>
        match parseValue fuel (skipWs r2) with
        | none => none
        | some (v, r3) =>
          match skipWs r3 with
          | ',' :: r4 => parseMembers fuel (skipWs r4) (acc ++ [(key, v)])
          | '}' :: r4 => some (.obj (acc ++ [(key, v)]), r4)
          | _ => none
      | _ => none
  | _ + 1, _, _ => none

/-- Element loop of `JSONArray`: positioned at an element's first
character; whitespace after an element and after `,` is skipped. -/
def parseElems : Nat → List Char → List Json → Option (Json × List Char)
  | 0, _, _ => none
  | fuel + 1, cs, acc =>
    match parseValue fuel cs with
    | none => none
    | some (v, r) =>
      match skipWs r with
      | ',' :: r2 => parseElems fuel (skipWs r2) (acc ++ [v])
      | ']' :: r2 => some (.arr (acc ++ [v]), r2)
      | _ => none
end

/-- `json.JSONDecoder().raw_decode(text, idx)` restricted to the suffix
`text[idx:]`: parse one JSON value starting exactly at the head of the
input (no leading-whitespace skip), returning it with the unconsumed
remainder (callers are free to ignore trailing garbage). -/
def rawDecode (cs : List Char) : Option (Json × List Char) :=
  parseValue (2 * cs.length + 2) cs

/-- `text.find(c)` followed by taking the suffix at the found index: the
suffix of `s` starting at the first occurrence of `c`, if any. -/
def dropToFirst (c : Char) : List Char → Option (List Char)
  | [] => none
  | a :: rest => if a = c then some (a :: rest) else dropToFirst c rest

/-- One iteration of `_parse_json`'s loop body for a given opening bracket:
find the first occurrence, attempt `raw_decode` there, and yield the value
on success (a `JSONDecodeError` falls through to `none`). -/
def tryStart (c : Char) (s : List Char) : Option Json :=
  match dropToFirst c s with
  | none => none
  | some t => (rawDecode t).map Prod.fst

/-- `main._parse_json`: try the first `{`, then the first `[`. -/
def parse_json (s : List Char) : Option Json :=
  match tryStart '{' s with
  | some v => some v
  | none => tryStart '[' s

/-! ### Python value semantics used by the orchestrator -/

/-- Code points of a Lean string, for writing JSON string/key literals. -/
def cp (s : String) : List Nat := s.data.map Char.toNat

/-- Lookup in a `dict` built from a pair list (`dict(pairs)`): a later
binding of the same key wins. -/
def dictGet (kvs : List (List Nat × Json)) (k : List Nat) : Option Json :=
  (kvs.reverse.find? (fun p => decide (p.1 = k))).map (·.2)

def digitsToNat (ds : List Char) : Nat :=
  ds.foldl (fun n c => n * 10 + (c.toNat - '0'.toNat)) 0

/-- Exact value of a JSON number lexeme as a scaled integer `m * 10 ^ e`;
`none` for the non-finite constants `NaN`/`Infinity`/`-Infinity`. -/
def lexVal? (lex : List Char) : Option (Int × Int) :=
  let (sgn, r1) : Int × List Char :=
    match lex with
    | '-' :: r => (-1, r)
    | _ => (1, lex)
  let (ip, r2) := takeDigits r1
  if ip = [] then none
  else
    let (fp, r3) : List Char × List Char :=
      match r2 with
      | '.' :: ra => takeDigits ra
      | _ => ([], r2)
    let (ex, r4) : Int × List Char :=
      match r3 with
      | e :: ra =>
        if e = 'e' ∨ e = 'E' then
          match ra with
          | '+' :: rb => ((digitsToNat (takeDigits rb).1 : Int), (takeDigits rb).2)
          | '-' :: rb => (-(digitsToNat (takeDigits rb).1 : Int), (takeDigits rb).2)
          | _ => ((digitsToNat (takeDigits ra).1 : Int), (takeDigits ra).2)
        else (0, r3)
      | [] => (0, r3)
    if r4 = [] then some (sgn * (digitsToNat (ip ++ fp) : Int), ex - fp.length)
    else none

/-- Whether the rational `m * 10 ^ e` equals the integer `n`. -/
def ratEqInt (m e n : Int) : Bool :=
  if 0 ≤ e then m * ((10 : Int) ^ e.toNat) = n else m = n * ((10 : Int) ^ (-e).toNat)

/-- Python `==` between a JSON-decoded value and a small integer.  Python
numbers compare across types by value (`2.0 == 2`, `True == 1`), strings
and containers never equal an integer.  Exact rational comparison is used
for number lexemes; the float-rounding corner cases this ignores (17+
significant digits) are unreachable in the claims. -/
def pyEqInt (j : Json) (n : Int) : Bool :=
  match j with
  | .bool b => (if b then (1 : Int) else 0) = n
  | .num lex =>
    match lexVal? lex with
    | some (m, e) => ratEqInt m e n
    | none => false
  | _ => false

/-- Python truthiness of a JSON-decoded value. -/
def pyTruthy : Json → Bool
  | .null => false
  | .bool b => b
  | .num lex =>
    match lexVal? lex with
    | some (m, _) => decide (m ≠ 0)
    | none => true
  | .str s => decide (s ≠ [])
  | .arr xs => !xs.isEmpty
  | .obj kvs => !kvs.isEmpty

/-- `str.strip()` whitespace (ASCII subset; the non-ASCII Unicode
whitespace Python also strips never occurs in the claims). -/
def isPyWs (c : Char) : Bool :=
  c = ' ' ∨ c = '\t' ∨ c = '\n' ∨ c = '\r' ∨ c = '\x0b' ∨ c = '\x0c'

def pyStrip (cs : List Char) : List Char :=
  ((cs.dropWhile isPyWs).reverse.dropWhile isPyWs).reverse

/-- `str.lower()` (ASCII subset). -/
def pyLower (cs : List Char) : List Char :=
  cs.map fun c => if 'A' ≤ c ∧ c ≤ 'Z' then Char.ofNat (c.toNat + 32) else c

/-! ### Pipeline orchestrator (`main._run_pipeline` and the human gates)

Effects are passed in through an `Env` record: each crew kickoff is an
opaque action that either completes or raises, the critic artifact read is
the content of `storage/critic_top3.json` or a raised `OSError`, and the
operator's input lines are a finite list (`input()` raises `EOFError` once
they run out).  Catchable exceptions (`KeyboardInterrupt` and `Exception`
subclasses) are values of `Exc`; `sys.exit(msg)` raises `SystemExit`,
which is *not* an `Exception` subclass and is therefore threaded past the
top-level handlers unchanged. -/

/-- A raised `KeyboardInterrupt`, or an `Exception` subclass with its
class name and `str(exc)` message. -/
inductive Exc where
  | interrupt
  | err (kind : List Char) (msg : List Char)

def eofExc : Exc := .err "EOFError".data "EOF when reading a line".data

/-- Observable side effects of one invocation, in order. -/
inductive Event where
  | crewScout
  | crewCritic
  | wroteChosen (idea : Json)
  | crewArchitect
  | crewBuilder
  | gitInitProject
  | warnedMissingDir
  | gitInitDir (name : List Char)

/-- One row of the `runs` table as `_run_pipeline` leaves it: `start_run`
creates it with status `running` and no end timestamp; `finish_run` sets
status, error text and the end timestamp (`finished`). -/
structure LedgerEntry where
  status : List Char
  error : Option (List Char)
  finished : Bool

/-- The ledger row created with `status="running"` by `start_run`. -/
def runningEntry : LedgerEntry := ⟨"running".data, none, false⟩

/-- Outcome of one `main.py` invocation: the final state of this run's
ledger row (`none` when `start_run` was never reached), the `sys.exit`
message (`some` means a non-zero process exit; `none` a normal zero
exit), and the ordered side effects. -/
structure RunResult where
  ledger : Option LedgerEntry
  exitMsg : Option (List Char)
  events : List Event

/-- External world of a full (non-preview) run. -/
structure Env where
  apiKey : Bool
  scoutCrew : Except Exc Unit
  criticCrew : Except Exc Unit
  criticRaw : Except Exc (List Char)
  architectCrew : Except Exc Unit
  builderCrew : Except Exc Unit
  projectDirExists : Bool
  inputs : List (List Char)

/-- Lines 98–104 of `main.py`: strip the artifact text, extract a JSON
value, fail with the first `sys.exit` message when nothing parseable (or
falsy) came out, take the `top3` field when the value is a dict (else the
value itself), and fail with the second message when that is missing or
falsy. -/
def criticExtract (t : List Char) : Except (List Char) Json :=
  let raw : Option Json :=
    if pyStrip t = [] then none else parse_json (pyStrip t)
  match raw with
  | none => .error "Critic produced no parseable output.".data
  | some j =>
    if pyTruthy j then
      let top3? : Option Json :=
        match j with
        | .obj kvs => dictGet kvs (cp "top3")
        | _ => some j
      match top3? with
      | none => .error "Critic output missing 'top3' list.".data
      | some v =>
        if pyTruthy v then .ok v
        else .error "Critic output missing 'top3' list.".data
    else .error "Critic produced no parseable output.".data

/-- `idea[key]`: subscription of a decoded JSON value by a string key;
`KeyError` on a dict without the key, `TypeError` on non-dicts. -/
def pyItem (j : Json) (k : List Nat) : Except Exc Json :=
  match j with
  | .obj kvs =>
    match dictGet kvs k with
    | some v => .ok v
    | none =>
      .error (.err "KeyError".data
        ('\'' :: (k.map Char.ofNat) ++ ['\'']))
  | _ => .error (.err "TypeError".data "object is not subscriptable".data)

/-- The display loop of `_prompt_idea_choice` (lines 112–116): every idea
is subscripted by the five displayed fields before any prompt; the first
missing field raises. -/
def displayIdeas : List Json → Except Exc Unit
  | [] => .ok ()
  | idea :: rest => do
    _ ← pyItem idea (cp "rank")
    _ ← pyItem idea (cp "trend_title")
    _ ← pyItem idea (cp "one_liner")
    _ ← pyItem idea (cp "feasibility_score")
    _ ← pyItem idea (cp "target_user")
    displayIdeas rest

/-- `next(x for x in top3 if x["rank"] == int(choice))`: scan for the
first entry whose `rank` compares `==` to the chosen integer; an
exhausted generator raises `StopIteration` (whose `str` is empty). -/
def selectRank : List Json → Int → Except Exc Json
  | [], _ => .error (.err "StopIteration".data [])
  | x :: rest, k =>
    match pyItem x (cp "rank") with
    | .error e => .error e
    | .ok v => if pyEqInt v k then .ok x else selectRank rest k

/-- The prompt loop of `_prompt_idea_choice` (lines 118–125): read a line
(`EOFError` when the input is exhausted), strip it, accept exactly `1`,
`2` or `3` and look up that rank (persisting the selection as
`storage/chosen_idea.json`), otherwise print a reminder and re-prompt. -/
def chooseLoop (ideas : List Json) :
    List (List Char) → Except Exc (Json × List (List Char) × List Event)
  | [] => .error eofExc
  | line :: rest =>
    let c := pyStrip line
    if c = "1".data ∨ c = "2".data ∨ c = "3".data then
      let k : Int := if c = "1".data then 1 else if c = "2".data then 2 else 3
      match selectRank ideas k with
      | .error e => .error e
      | .ok chosen => .ok (chosen, rest, [.wroteChosen chosen])
    else chooseLoop ideas rest

/-- `_prompt_idea_choice`: display all entries, then run the prompt loop.
Iterating a non-list (the extracted value is whatever `criticExtract`
produced) raises; Python would raise `TypeError` on most shapes (on a
dict it would iterate the keys and fail at the first subscription), which
is modelled as a `TypeError` uniformly. -/
def promptIdeaChoice (top3 : Json) (inputs : List (List Char)) :
    Except Exc (Json × List (List Char) × List Event) :=
  match top3 with
  | .arr ideas =>
    match displayIdeas ideas with
    | .error e => .error e
    | .ok _ => chooseLoop ideas inputs
  | _ => .error (.err "TypeError".data "object is not iterable".data)

/-- The prompt loop of `_prompt_design_approval` (lines 153–159): strip
and lowercase each line, accept `y`/`yes` as approval and `n`/`no` as
rejection, re-prompt otherwise; `EOFError` on exhausted input. -/
def approvalLoop : List (List Char) → Except Exc (Bool × List (List Char))
  | [] => .error eofExc
  | line :: rest =>
    let c := pyLower (pyStrip line)
    if c = "y".data ∨ c = "yes".data then .ok (true, rest)
    else if c = "n".data ∨ c = "no".data then .ok (false, rest)
    else approvalLoop rest

/-- The top-level `except KeyboardInterrupt` / `except Exception`
handlers of `_run_pipeline` (lines 238–245): mark the ledger `error` and
exit non-zero. -/
def catchTop (e : Exc) (evs : List Event) : RunResult :=
  match e with
  | .interrupt =>
    ⟨some ⟨"error".data, some "KeyboardInterrupt".data, true⟩,
     some "\nInterrupted.".data, evs⟩
  | .err _ m =>
    ⟨some ⟨"error".data, some m, true⟩,
     some ("Pipeline error: ".data ++ m), evs⟩

/-- `main._run_pipeline` with `dry_run=False`: check the credential,
create the ledger row, then drive Scout → Critic → selection gate →
Architect → approval gate → Builder inside the top-level try.  The
`sys.exit` calls in `_stage_critic` and at the approval rejection raise
`SystemExit`, which no handler catches: the first leaves the ledger row
untouched (still `running`), the second runs after an explicit
`finish_run(..., status="error")`. -/
def run_pipeline (env : Env) : RunResult :=
  if env.apiKey = false then
    ⟨none,
     some "Error: ANTHROPIC_API_KEY is not set. Add it to .env or your environment.".data,
     []⟩
  else
    match env.scoutCrew with
    | .error e => catchTop e [.crewScout]
    | .ok _ =>
    match env.criticCrew with
    | .error e => catchTop e [.crewScout, .crewCritic]
    | .ok _ =>
    match env.criticRaw with
    | .error e => catchTop e [.crewScout, .crewCritic]
    | .ok t =>
    match criticExtract t with
    | .error m => ⟨some runningEntry, some m, [.crewScout, .crewCritic]⟩
    | .ok top3 =>
    match promptIdeaChoice top3 env.inputs with
    | .error e => catchTop e [.crewScout, .crewCritic]
    | .ok (_, rest, evs1) =>
    let evs := [.crewScout, .crewCritic] ++ evs1 ++ [.crewArchitect]
    match env.architectCrew with
    | .error e => catchTop e evs
    | .ok _ =>
    match approvalLoop rest with
    | .error e => catchTop e evs
    | .ok (false, _) =>
      ⟨some ⟨"error".data, some "Aborted by user after design review".data, true⟩,
       some "Aborted. Edit storage/design_sheet.md or re-run to get a new design.".data,
       evs⟩
    | .ok (true, _) =>
    match env.builderCrew with
    | .error e => catchTop e (evs ++ [.crewBuilder])
    | .ok _ =>
      ⟨some ⟨"success".data, none, true⟩, none,
       evs ++ [.crewBuilder] ++
         (if env.projectDirExists then [.gitInitProject] else [.warnedMissingDir])⟩

/-! ### Recovery mode (`main._recover`) -/

/-- Total lexicographic order on names used by `sorted(Path.iterdir())`. -/
def nameLe : List Char → List Char → Bool
  | [], _ => true
  | _ :: _, [] => false
  | a :: as, b :: bs => if a < b then true else if b < a then false else nameLe as bs

/-- External world of a `--recover` invocation: whether `output/` exists
and its entries (name, is-dir), plus the previously captured Construction
artifact `storage/builder_output.txt` (`none` when absent).  The artifact
is part of the world so that theorems can speak about it; `_recover`
itself never reads it. -/
structure RecoverEnv where
  outputExists : Bool
  entries : List (List Char × Bool)
  builderArtifact : Option (List Char)

structure RecoverResult where
  exitMsg : Option (List Char)
  events : List Event

/-- Insertion of a directory entry into a name-sorted list. -/
def insertEntry (x : List Char × Bool) :
    List (List Char × Bool) → List (List Char × Bool)
  | [] => [x]
  | y :: ys => if nameLe x.1 y.1 then x :: y :: ys else y :: insertEntry x ys

/-- `sorted(...)` by name (directory entries have distinct names, so the
choice of sorting algorithm is immaterial). -/
def sortEntries : List (List Char × Bool) → List (List Char × Bool)
  | [] => []
  | x :: xs => insertEntry x (sortEntries xs)

/-- `main._recover`: list `output/` sorted by name, keep directories,
exit non-zero when there are none, otherwise re-run `git init` on the
last one.  No Agent Executor runs, no manifest is parsed, no file is
written. -/
def recover (env : RecoverEnv) : RecoverResult :=
  let dirs :=
    if env.outputExists then
      (((sortEntries env.entries).filter (·.2)).map (·.1))
    else []
  match dirs.getLast? with
  | none =>
    ⟨some "No directories found in output/. Run the full pipeline first.".data, []⟩
  | some d => ⟨none, [.gitInitDir d]⟩

/-! ### Source adapters (`tools/reddit_scraper.py`,
`tools/producthunt_scraper.py`, `tools/twitter_scraper.py`)

Each `_run` returns `json.dumps(...)` of a list; the embedding returns
the JSON value that string serializes.  `os.getenv` results are `Option`
(`none` = unset), and each network/subprocess action is an env field
giving either its result or the message of the exception it raised. -/

/-- Truthiness test `if not value:` on an `os.getenv` result: `None` or
the empty string. -/
def strFalsy : Option (List Char) → Bool
  | none => true
  | some s => s.isEmpty

/-- The single-element error-marker list
`[{"error": msg, "source": src}]`. -/
def errorMarker (src : String) (msg : List Char) : Json :=
  .arr [.obj [(cp "error", .str (msg.map Char.toNat)),
              (cp "source", .str (cp src))]]

def intLex (n : Int) : Json := .num (toString n).data

/-- One PRAW submission as consumed by `RedditTool._run`. -/
structure RedditPost where
  title : List Nat
  url : List Nat
  score : Int
  comments : Int

/-- World of one `RedditTool._run` call: the two credentials, the
`praw` import plus `praw.Reddit(...)` construction, and the per-subreddit
hot-posts fetch (its error is the message of whatever the iteration
raised). -/
structure RedditEnv where
  clientId : Option (List Char)
  clientSecret : Option (List Char)
  clientInit : Except (List Char) Unit
  fetch : List Char → Except (List Char) (List RedditPost)

def redditRecord (sub : List Char) (p : RedditPost) : Json :=
  .obj [(cp "source", .str (cp "reddit/r/" ++ sub.map Char.toNat)),
        (cp "title", .str p.title),
        (cp "url", .str p.url),
        (cp "score", intLex p.score),
        (cp "comments", intLex p.comments)]

/-- `RedditTool._run`: missing/empty credentials short-circuit to the
error marker; a failed import/client construction yields the marker; each
subreddit is fetched inside its own `try`, so a failed subreddit is
logged and *skipped* (contributing nothing, not a marker). -/
def redditRun (env : RedditEnv) (subreddits : List Char) : Json :=
  if strFalsy env.clientId ∨ strFalsy env.clientSecret then
    errorMarker "reddit" "REDDIT_CLIENT_ID/SECRET not set".data
  else
    match env.clientInit with
    | .error e => errorMarker "reddit" e
    | .ok _ =>
      .arr (((subreddits.splitOn ',').map fun sub0 =>
        let sub := pyStrip sub0
        match env.fetch sub with
        | .ok posts => posts.map (redditRecord sub)
        | .error _ => []).flatten)

/-- `dict.get(key, default)`; `AttributeError` when the receiver is not
a dict. -/
def pyGetD (j : Json) (k : List Nat) (dflt : Json) : Except (List Char) Json :=
  match j with
  | .obj kvs => .ok ((dictGet kvs k).getD dflt)
  | _ => .error "object has no attribute get".data

/-- `value[key]` with the exception reduced to its message. -/
def pyItemM (j : Json) (k : List Nat) : Except (List Char) Json :=
  match pyItem j k with
  | .ok v => .ok v
  | .error (.err _ m) => .error m
  | .error .interrupt => .error []

/-- World of one `ProductHuntTool._run` call: the credential and the
combined `httpx.post` / `raise_for_status` / `resp.json()` step. -/
structure PHEnv where
  apiKey : Option (List Char)
  http : Except (List Char) Json

/-- Lines 58–68 of `producthunt_scraper.py` for one edge. -/
def phNode (edge : Json) : Except (List Char) Json := do
  let node ← pyItemM edge (cp "node")
  let topicsObj ← pyGetD node (cp "topics") (.obj [])
  let topicEdges ← pyGetD topicsObj (cp "edges") (.arr [])
  let topics ← match topicEdges with
    | .arr ts => ts.mapM fun t => do pyItemM (← pyItemM t (cp "node")) (cp "name")
    | _ => .error "object is not iterable".data
  let name ← pyItemM node (cp "name")
  let tagline ← pyGetD node (cp "tagline") (.str [])
  let url ← pyGetD node (cp "url") (.str [])
  let votes ← pyGetD node (cp "votesCount") (.num ['0'])
  .ok (.obj [(cp "source", .str (cp "producthunt")),
             (cp "title", name),
             (cp "tagline", tagline),
             (cp "url", url),
             (cp "votes", votes),
             (cp "topics", .arr topics)])

/-- Lines 56–69: drill into `data.posts.edges` with defaulting `get`s,
then build one record per edge. -/
def phExtract (body : Json) : Except (List Char) (List Json) := do
  let d ← pyGetD body (cp "data") (.obj [])
  let p ← pyGetD d (cp "posts") (.obj [])
  let e ← pyGetD p (cp "edges") (.arr [])
  match e with
  | .arr edges => edges.mapM phNode
  | _ => .error "object is not iterable".data

/-- `ProductHuntTool._run`: a missing/empty key short-circuits to the
marker before any network call; any exception in the request or the
response processing is caught into the marker. -/
def phRun (env : PHEnv) : Json :=
  if strFalsy env.apiKey then
    errorMarker "producthunt" "PRODUCTHUNT_API_KEY not set".data
  else
    match env.http with
    | .error e => errorMarker "producthunt" e
    | .ok body =>
      match phExtract body with
      | .error e => errorMarker "producthunt" e
      | .ok results => .arr results

/-- One tweet as consumed by `_fetch_via_module`. -/
structure Tweet where
  rawContent : List Nat
  url : List Nat
  likeCount : Int
  retweetCount : Int

/-- Why `_fetch_via_module` raised: `ImportError` is distinguished only
by its log message; both kinds fall through to the subprocess path. -/
inductive TwModuleExc where
  | importError
  | exc (msg : List Char)

/-- World of one `TwitterTool._run` call: the in-process snscrape module
path and the subprocess fallback (its stdout as lines, or the message of
a raised exception such as a missing binary or a timeout). -/
structure TwEnv where
  moduleResult : Except TwModuleExc (List Tweet)
  subprocess : Except (List Char) (List (List Char))

def twRecord (t : Tweet) : Json :=
  .obj [(cp "source", .str (cp "twitter")),
        (cp "title", .str (t.rawContent.take 280)),
        (cp "url", .str t.url),
        (cp "score", intLex t.likeCount),
        (cp "retweets", intLex t.retweetCount)]

/-- `json.loads`: whitespace around a single complete JSON document. -/
def pyLoads (s : List Char) : Option Json :=
  match rawDecode (skipWs s) with
  | some (v, r) => if skipWs r = [] then some v else none
  | none => none

/-- `value[:280]`: slicing works on strings and lists, raises on other
shapes. -/
def pySlice280 : Json → Option Json
  | .str s => some (.str (s.take 280))
  | .arr xs => some (.arr (xs.take 280))
  | _ => none

/-- Lines 42–53 of `twitter_scraper.py` for one stdout line: parse it,
build the record with defaulting `get`s; any exception (unparseable
line, non-dict value, unsliceable content) skips the line. -/
def twLineRecord (line : List Char) : Option Json :=
  match pyLoads line with
  | some (.obj kvs) =>
    let content := (dictGet kvs (cp "content")).getD (.str [])
    match pySlice280 content with
    | some title =>
      some (.obj [(cp "source", .str (cp "twitter")),
                  (cp "title", title),
                  (cp "url", (dictGet kvs (cp "url")).getD (.str [])),
                  (cp "score", (dictGet kvs (cp "likeCount")).getD (.num ['0'])),
                  (cp "retweets", (dictGet kvs (cp "retweetCount")).getD (.num ['0']))])
    | none => none
  | _ => none

/-- `TwitterTool._run`: try the module path; on `ImportError` or any
other exception fall through to the subprocess path; only when that also
raises is the single-element marker returned. -/
def twitterRun (env : TwEnv) : Json :=
  match env.moduleResult with
  | .ok tweets => .arr (tweets.map twRecord)
  | .error _ =>
    match env.subprocess with
    | .ok lines => .arr (lines.filterMap twLineRecord)
    | .error e => errorMarker "twitter" e

/-! ### Rank bookkeeping for the selection gate -/

/-- The `rank` value an entry would expose to `idea["rank"]`, when the
entry is a dict carrying the key. -/
def rankOf? (j : Json) : Option Json :=
  match pyItem j (cp "rank") with
  | .ok v => some v
  | .error _ => none

/-- Whether an entry's `rank` value compares `==` to `k`. -/
def hasRankEq (k : Int) (j : Json) : Bool :=
  match rankOf? j with
  | some v => pyEqInt v k
  | none => false

/-- The spec invariant "rank values are exactly the integers `1..N`":
every entry carries a rank and each of `1..N` is carried by exactly one
entry. -/
def ranksExactly (l : List Json) : Bool :=
  l.all (fun x => (rankOf? x).isSome) &&
  (List.range l.length).all (fun i => l.countP (hasRankEq ((i : Int) + 1)) = 1)

/-! ### Concrete instances used by witnesses and counterexamples -/

/-- An unparseable `\x7b...\x7d` followed by a well-formed JSON object:
the claimed forward scan would find the object, the code finds nothing. -/
def cexScan : List Char := "\x7bbad\x7d \x7b\"a\":1\x7d".data

/-- An array value starting at position 0 followed by an object value:
the claimed earliest-parse preference would return the array. -/
def cexOrder : List Char := "[1] \x7b\"a\": 2\x7d".data

/-- An unparseable object, an unparseable first `[`, and a parseable
array further on. -/
def cexBracketScan : List Char := "\x7bx [y] [1,2]".data

/-- Opening brackets with invalid contents throughout. -/
def cexNoJson : List Char := "\x7b [ oops".data

/-- A well-formed ranked-list entry with the five displayed fields. -/
def mkIdea (rank : Json) (title : String) : Json :=
  .obj [(cp "rank", rank),
        (cp "trend_title", .str (cp title)),
        (cp "one_liner", .str (cp "a one-liner")),
        (cp "feasibility_score", .num ['7']),
        (cp "target_user", .str (cp "devs"))]

def idea1 : Json := mkIdea (.num ['1']) "First"
def idea2 : Json := mkIdea (.num ['2']) "Second"
def idea3 : Json := mkIdea (.num ['3']) "Third"

/-- A critic artifact whose single entry has rank 5. -/
def cexRank5Text : List Char :=
  "\x7b\"top3\": [\x7b\"rank\": 5, \"trend_title\": \"T\", \"one_liner\": \"L\", \"feasibility_score\": 7, \"target_user\": \"U\"\x7d]\x7d".data

def idea5 : Json :=
  .obj [(cp "rank", .num ['5']), (cp "trend_title", .str (cp "T")),
        (cp "one_liner", .str (cp "L")), (cp "feasibility_score", .num ['7']),
        (cp "target_user", .str (cp "U"))]

/-- Entries whose ranks are the strings "1", "2", "3" rather than
integers. -/
def ideaS1 : Json := mkIdea (.str (cp "1")) "SFirst"
def ideaS2 : Json := mkIdea (.str (cp "2")) "SSecond"
def ideaS3 : Json := mkIdea (.str (cp "3")) "SThird"

/-- A critic artifact with a proper rank-1..3 `top3` list. -/
def nominalCriticText : List Char :=
  "\x7b\"top3\": [\x7b\"rank\": 1, \"trend_title\": \"First\", \"one_liner\": \"a one-liner\", \"feasibility_score\": 7, \"target_user\": \"devs\"\x7d, \x7b\"rank\": 2, \"trend_title\": \"Second\", \"one_liner\": \"a one-liner\", \"feasibility_score\": 7, \"target_user\": \"devs\"\x7d, \x7b\"rank\": 3, \"trend_title\": \"Third\", \"one_liner\": \"a one-liner\", \"feasibility_score\": 7, \"target_user\": \"devs\"\x7d]\x7d".data

/-- A fully nominal full-run world, parameterised by the operator's input
lines. -/
def nominalEnv (inputs : List (List Char)) : Env :=
  { apiKey := true
    scoutCrew := .ok ()
    criticCrew := .ok ()
    criticRaw := .ok nominalCriticText
    architectCrew := .ok ()
    builderCrew := .ok ()
    projectDirExists := true
    inputs := inputs }

/-- A full-run world whose critic artifact holds no JSON at all. -/
def envNoParse : Env :=
  { nominalEnv ["1".data, "y".data] with criticRaw := .ok "no json here".data }

/-- A recovery world with one materialized project directory and no
Construction artifact. -/
def envRecoverNoArtifact : RecoverEnv :=
  ⟨true, [("proj".data, true)], none⟩

/-- A Reddit world with credentials present, a healthy client, and every
subreddit fetch failing with a timeout. -/
def envRedditTimeout : RedditEnv :=
  { clientId := some "id".data
    clientSecret := some "secret".data
    clientInit := .ok ()
    fetch := fun _ => .error "request timed out".data }

/-! ## Supporting lemmas -/

theorem dropToFirst_append (c : Char) (p t : List Char)
    (hp : ∀ a ∈ p, a ≠ c) :
    dropToFirst c (p ++ c :: t) = some (c :: t) := by
  induction p with
  | nil => simp [dropToFirst]
  | cons a as ih =>
    have ha : a ≠ c := hp a (by simp)
    simpa [dropToFirst, ha] using ih (fun x hx => hp x (by simp [hx]))

theorem dropToFirst_suffix (c : Char) (s t : List Char)
    (h : dropToFirst c s = some t) : ∃ i < s.length, t = s.drop i := by
  induction s with
  | nil => simp [dropToFirst] at h
  | cons a as ih =>
    by_cases hac : a = c
    · refine ⟨0, by simp, ?_⟩
      simp only [dropToFirst, if_pos hac] at h
      exact (Option.some_inj.mp h).symm
    · simp only [dropToFirst, if_neg hac] at h
      obtain ⟨i, hi, ht⟩ := ih h
      exact ⟨i + 1, by simpa using Nat.succ_lt_succ hi, by simpa using ht⟩

/-! ## Claims -/

/-- C9: for every input in which no suffix parses as a JSON value — in
particular empty input and input with opening brackets but invalid
contents throughout — `_parse_json` returns `None`.  It never raises:
the embedding is a total function, and the only exception the two
`raw_decode` attempts can raise (`json.JSONDecodeError`) is caught by
the loop. -/
theorem parse_json_not_found (s : List Char)
    (h : ∀ i < s.length, rawDecode (s.drop i) = none) :
    parse_json s = none := by
  have key : ∀ c t, dropToFirst c s = some t → rawDecode t = none := by
    intro c t hct
    obtain ⟨i, hi, ht⟩ := dropToFirst_suffix c s t hct
    rw [ht]
    exact h i hi
  unfold parse_json tryStart
  cases hb : dropToFirst '{' s with
  | none =>
    cases hk : dropToFirst '[' s with
    | none => rfl
    | some u => simp [key '[' u hk]
  | some t =>
    have ht := key '{' t hb
    cases hk : dropToFirst '[' s with
    | none => simp [ht]
    | some u => simp [ht, key '[' u hk]

/-- C9 witness: `"\x7b [ oops"` has brackets but no valid JSON anywhere,
and the extractor returns `None` on it. -/
theorem parse_json_not_found_witness :
    (∀ i < cexNoJson.length, rawDecode (cexNoJson.drop i) = none) ∧
    parse_json cexNoJson = none := by
  have hlen : cexNoJson.length = 8 := rfl
  have h : ∀ i < cexNoJson.length, rawDecode (cexNoJson.drop i) = none := by
    intro i hi
    rw [hlen] at hi
    interval_cases i <;> rfl
  exact ⟨h, parse_json_not_found cexNoJson h⟩

/-- C1 counterexample: the claim fails twice over.  On
`"\x7bbad\x7d \x7b\"a\":1\x7d"` a well-formed JSON object starts at index
6, but the extractor — which never scans past the *first* `\x7b` — returns
`None` instead of that object.  On `"[1] \x7b\"a\": 2\x7d"` the earliest
successful parse is the array at index 0, but the extractor returns the
later object, because the object attempt is tried first regardless of
position. -/
theorem parse_json_claim_cex :
    (parse_json cexScan = none ∧
      rawDecode (cexScan.drop 6) = some (.obj [(cp "a", .num ['1'])], [])) ∧
    (parse_json cexOrder = some (.obj [(cp "a", .num ['2'])]) ∧
      rawDecode cexOrder = some (.arr [.num ['1']], " \x7b\"a\": 2\x7d".data)) :=
  ⟨⟨rfl, rfl⟩, ⟨rfl, rfl⟩⟩

/-- C1 (amended): the extractor attempts a parse only at the first
occurrence of `\x7b` and, failing that, at the first occurrence of `[`;
it scans no further and prefers the object attempt regardless of
position.  Positively: whenever the text's first `\x7b` starts a substring
from which a JSON value parses, that value is returned — prose before it
(anything without a `\x7b`, e.g. markdown fencing) is tolerated and text
after the value's end is ignored. -/
theorem parse_json_first_brace (p t : List Char) (v : Json) (r : List Char)
    (hp : ∀ a ∈ p, a ≠ '{')
    (hd : rawDecode ('{' :: t) = some (v, r)) :
    parse_json (p ++ '{' :: t) = some v := by
  have h1 : dropToFirst '{' (p ++ '{' :: t) = some ('{' :: t) :=
    dropToFirst_append '{' p t hp
  simp [parse_json, tryStart, h1, hd]

/-- C1 witness: a fenced JSON object surrounded by prose is extracted,
with the fence tail and trailing prose ignored. -/
theorem parse_json_first_brace_witness :
    (∀ a ∈ "Answer:\n```json\n".data, a ≠ '{') ∧
    parse_json ("Answer:\n```json\n".data ++ '{' :: "\"files\": [1]\x7d\n``` done".data)
      = some (.obj [(cp "files", .arr [.num ['1']])]) :=
  ⟨by decide, parse_json_first_brace _ _ _ _ (by decide) rfl⟩

/-- C6 counterexample: in `"\x7bx [y] [1,2]"` the earliest `\x7b` fails to
parse and a parseable array `[1,2]` occurs later, yet the extractor
returns `None`: after the failed object attempt it tries only the *first*
`[` (the unparseable `[y]`), never the later one. -/
theorem parse_json_array_scan_cex :
    parse_json cexBracketScan = none ∧
    rawDecode (cexBracketScan.drop 7) = some (.arr [.num ['1'], .num ['2']], []) :=
  ⟨rfl, rfl⟩

/-- C6 (amended): when the earliest `\x7b` begins a substring that fails
to parse, the extractor returns the parseable array — provided the parse
attempt at the input's *first* `[` occurrence is the one that succeeds;
a failure there is not recovered by further scanning. -/
theorem parse_json_array_fallback (s t u : List Char) (v : Json) (r : List Char)
    (h1 : dropToFirst '{' s = some t) (h2 : rawDecode t = none)
    (h3 : dropToFirst '[' s = some u) (h4 : rawDecode u = some (v, r)) :
    parse_json s = some v := by
  simp [parse_json, tryStart, h1, h2, h3, h4]

/-- C6 witness: `"\x7bbad\x7d [1, 2]"` — the failed object attempt falls
through to the array parse at the first `[`. -/
theorem parse_json_array_fallback_witness :
    dropToFirst '{' "\x7bbad\x7d [1, 2]".data = some "\x7bbad\x7d [1, 2]".data ∧
    rawDecode "\x7bbad\x7d [1, 2]".data = none ∧
    dropToFirst '[' "\x7bbad\x7d [1, 2]".data = some "[1, 2]".data ∧
    parse_json "\x7bbad\x7d [1, 2]".data = some (.arr [.num ['1'], .num ['2']]) :=
  ⟨rfl, rfl, rfl,
    parse_json_array_fallback "\x7bbad\x7d [1, 2]".data _ _ _ _ rfl rfl rfl rfl⟩

theorem mem_insertEntry (x y : List Char × Bool) (l : List (List Char × Bool)) :
    y ∈ insertEntry x l ↔ y = x ∨ y ∈ l := by
  induction l with
  | nil => simp [insertEntry]
  | cons a as ih =>
    by_cases h : nameLe x.1 a.1
    · simp [insertEntry, h]
    · simp [insertEntry, h, ih]
      tauto

theorem mem_sortEntries (y : List Char × Bool) (l : List (List Char × Bool)) :
    y ∈ sortEntries l ↔ y ∈ l := by
  induction l with
  | nil => simp [sortEntries]
  | cons a as ih => simp [sortEntries, mem_insertEntry, ih]

/-- C2 counterexample: with one previously materialized project directory
and the Construction artifact *absent*, `--recover` exits zero after a
plain `git init` — it neither exits non-zero on the absent artifact nor
re-extracts any Build Manifest nor drives the Project Writer. -/
theorem recover_claim_cex :
    envRecoverNoArtifact.builderArtifact = none ∧
    recover envRecoverNoArtifact = ⟨none, [.gitInitDir "proj".data]⟩ :=
  ⟨rfl, rfl⟩

/-- C2 (amended): `--recover` ignores the Construction artifact entirely:
its behavior is unchanged by replacing the artifact, its only side effect
is a `git init` on the name-wise last project directory, and it exits
non-zero exactly when no previously materialized project directory
exists. -/
theorem recover_spec (env : RecoverEnv) (a : Option (List Char)) :
    recover { env with builderArtifact := a } = recover env ∧
    (∀ ev ∈ (recover env).events, ∃ d, ev = .gitInitDir d) ∧
    ((recover env).exitMsg = none ↔
      env.outputExists = true ∧ ∃ e ∈ env.entries, e.2 = true) := by
  refine ⟨rfl, ?_, ?_⟩
  · unfold recover
    cases h : (if env.outputExists = true then
        (((sortEntries env.entries).filter (·.2)).map (·.1)) else []).getLast? with
    | none => simp [h]
    | some d => simp [h]
  · unfold recover
    by_cases ho : env.outputExists = true
    · rw [if_pos ho]
      cases h : (((sortEntries env.entries).filter (·.2)).map (·.1)).getLast? with
      | none =>
        have hnil := List.getLast?_eq_none_iff.mp h
        rw [List.map_eq_nil_iff, List.filter_eq_nil_iff] at hnil
        simp only [h]
        constructor
        · intro hc; exact absurd hc (by simp)
        · rintro ⟨-, e, he, he2⟩
          exact absurd he2 (by simpa using hnil e ((mem_sortEntries e _).mpr he))
      | some d =>
        simp only [h]
        have hd : d ∈ ((sortEntries env.entries).filter (·.2)).map (·.1) := by
          rcases List.mem_getLast?_eq_getLast (Option.mem_def.mpr h) with ⟨hne, hh⟩
          rw [hh]
          exact List.getLast_mem hne
        rw [List.mem_map] at hd
        obtain ⟨e, hef, -⟩ := hd
        rw [List.mem_filter] at hef
        obtain ⟨hes, he2⟩ := hef
        constructor
        · intro _; exact ⟨ho, e, (mem_sortEntries e _).mp hes, he2⟩
        · intro _; simp
    · rw [if_neg ho]
      constructor
      · intro hc; exact absurd hc (by simp)
      · rintro ⟨h1, -⟩; exact absurd h1 ho

/-- C3 counterexample: on a full run whose critic artifact holds no JSON,
the process exits non-zero with the fixed diagnostic, but the Run Ledger
entry is *not* marked `error`: it still has status `running` and no end
timestamp, because `sys.exit` raises `SystemExit`, which the
`except Exception` handler does not catch. -/
theorem critic_failure_cex :
    (run_pipeline envNoParse).exitMsg
        = some "Critic produced no parseable output.".data ∧
    (run_pipeline envNoParse).ledger = some runningEntry ∧
    runningEntry.status ≠ "error".data ∧ runningEntry.finished = false :=
  ⟨rfl, rfl, by decide, rfl⟩

/-- C3 (amended): in a full run, when the Evaluation artifact yields no
parseable value or the parsed value lacks a truthy `top3` field, the run
aborts immediately with a non-zero exit carrying the corresponding
diagnostic — but the Run Ledger entry is left in its initial `running`
state (no `error` status, no end timestamp), since the `SystemExit`
bypasses the handler that performs the `error` update. -/
theorem critic_failure_no_ledger_update (env : Env) (t m : List Char)
    (h1 : env.apiKey = true) (h2 : env.scoutCrew = .ok ())
    (h3 : env.criticCrew = .ok ()) (h4 : env.criticRaw = .ok t)
    (h5 : criticExtract t = .error m) :
    run_pipeline env = ⟨some runningEntry, some m, [.crewScout, .crewCritic]⟩ := by
  simp [run_pipeline, h1, h2, h3, h4, h5]

/-- C3 witness: the unparseable-artifact world hits the first diagnostic
and leaves the ledger running. -/
theorem critic_failure_no_ledger_update_witness :
    criticExtract "no json here".data
        = .error "Critic produced no parseable output.".data ∧
    run_pipeline envNoParse =
      ⟨some runningEntry, some "Critic produced no parseable output.".data,
       [.crewScout, .crewCritic]⟩ :=
  ⟨rfl, critic_failure_no_ledger_update envNoParse "no json here".data
    "Critic produced no parseable output.".data rfl rfl rfl rfl rfl⟩

theorem chooseLoop_events (ideas : List Json) (inputs : List (List Char))
    (c : Json) (rest : List (List Char)) (evs : List Event)
    (h : chooseLoop ideas inputs = .ok (c, rest, evs)) :
    evs = [.wroteChosen c] := by
  induction inputs with
  | nil => simp [chooseLoop] at h
  | cons line rs ih =>
    unfold chooseLoop at h
    by_cases hc : pyStrip line = "1".data ∨ pyStrip line = "2".data ∨
        pyStrip line = "3".data
    · rw [if_pos hc] at h
      dsimp only at h
      cases hsel : selectRank ideas
          (if pyStrip line = "1".data then 1
           else if pyStrip line = "2".data then 2 else 3) with
      | error e => rw [hsel] at h; simp at h
      | ok chosen =>
        rw [hsel] at h
        simp only [Except.ok.injEq, Prod.mk.injEq] at h
        obtain ⟨h1, -, h3⟩ := h
        rw [← h3, h1]
    · rw [if_neg hc] at h
      exact ih h

theorem promptIdeaChoice_events (top3 : Json) (inputs : List (List Char))
    (c : Json) (rest : List (List Char)) (evs : List Event)
    (h : promptIdeaChoice top3 inputs = .ok (c, rest, evs)) :
    evs = [.wroteChosen c] := by
  cases top3 with
  | arr ideas =>
    unfold promptIdeaChoice at h
    dsimp only at h
    cases hd : displayIdeas ideas with
    | error e => rw [hd] at h; simp at h
    | ok u => rw [hd] at h; exact chooseLoop_events ideas inputs c rest evs h
  | null => simp [promptIdeaChoice] at h
  | bool b => simp [promptIdeaChoice] at h
  | num lex => simp [promptIdeaChoice] at h
  | str s => simp [promptIdeaChoice] at h
  | obj kvs => simp [promptIdeaChoice] at h

/-- C4: whenever the run reaches the design-approval gate and the
operator's answer is negative, the Run Ledger entry for the run ends as
`error` with the fixed message "Aborted by user after design review", the
process exits non-zero with the fixed abort message, and the Builder
(Construction) crew — and hence the Project Writer — is never invoked. -/
theorem design_rejection_aborts (env : Env) (t : List Char)
    (top3 chosen : Json) (rest rest2 : List (List Char)) (evs1 : List Event)
    (h1 : env.apiKey = true) (h2 : env.scoutCrew = .ok ())
    (h3 : env.criticCrew = .ok ()) (h4 : env.criticRaw = .ok t)
    (h5 : criticExtract t = .ok top3)
    (h6 : promptIdeaChoice top3 env.inputs = .ok (chosen, rest, evs1))
    (h7 : env.architectCrew = .ok ())
    (h8 : approvalLoop rest = .ok (false, rest2)) :
    run_pipeline env =
      ⟨some ⟨"error".data, some "Aborted by user after design review".data, true⟩,
       some "Aborted. Edit storage/design_sheet.md or re-run to get a new design.".data,
       [.crewScout, .crewCritic, .wroteChosen chosen, .crewArchitect]⟩ ∧
    Event.crewBuilder ∉
      [Event.crewScout, Event.crewCritic, Event.wroteChosen chosen,
       Event.crewArchitect] := by
  have hevs : evs1 = [.wroteChosen chosen] :=
    promptIdeaChoice_events top3 env.inputs chosen rest evs1 h6
  subst hevs
  exact ⟨by simp [run_pipeline, h1, h2, h3, h4, h5, h6, h7, h8], by simp⟩

/-- C4 witness: a nominal run where the operator picks idea 1 and then
answers `n` at the approval gate. -/
theorem design_rejection_aborts_witness :
    approvalLoop ["n".data] = .ok (false, []) ∧
    run_pipeline (nominalEnv ["1".data, "n".data]) =
      ⟨some ⟨"error".data, some "Aborted by user after design review".data, true⟩,
       some "Aborted. Edit storage/design_sheet.md or re-run to get a new design.".data,
       [.crewScout, .crewCritic, .wroteChosen idea1, .crewArchitect]⟩ :=
  ⟨rfl,
   (design_rejection_aborts (nominalEnv ["1".data, "n".data]) nominalCriticText
     (.arr [idea1, idea2, idea3]) idea1 ["n".data] [] [.wroteChosen idea1]
     rfl rfl rfl rfl rfl rfl rfl rfl).1⟩

theorem pyItem_rank_of_rankOf? (j v : Json) (hv : rankOf? j = some v) :
    pyItem j (cp "rank") = .ok v := by
  unfold rankOf? at hv
  cases hp : pyItem j (cp "rank") with
  | ok w => rw [hp] at hv; rw [Option.some_inj.mp hv]
  | error e => rw [hp] at hv; simp at hv

theorem selectRank_of_filter (l : List Json) (k : Int) (x : Json)
    (hall : ∀ y ∈ l, (rankOf? y).isSome = true)
    (hx : l.filter (hasRankEq k) = [x]) :
    selectRank l k = .ok x ∧ hasRankEq k x = true ∧
      ∀ y ∈ l, hasRankEq k y = true → y = x := by
  induction l with
  | nil => simp at hx
  | cons a as ih =>
    obtain ⟨v, hv⟩ := Option.isSome_iff_exists.mp (hall a (by simp))
    have hitem : pyItem a (cp "rank") = .ok v := pyItem_rank_of_rankOf? a v hv
    have hra : hasRankEq k a = pyEqInt v k := by
      unfold hasRankEq
      rw [hv]
    by_cases hm : hasRankEq k a = true
    · rw [List.filter_cons_of_pos hm] at hx
      obtain ⟨hax, hnil⟩ : a = x ∧ as.filter (hasRankEq k) = [] := by
        constructor
        · exact (List.cons.injEq _ _ _ _ ▸ hx).1
        · exact (List.cons.injEq _ _ _ _ ▸ hx).2
      subst hax
      refine ⟨?_, hm, ?_⟩
      · unfold selectRank
        rw [hitem]
        dsimp only
        rw [if_pos (by rw [← hra]; exact hm)]
      · intro y hy hyk
        rcases List.mem_cons.mp hy with rfl | hyas
        · rfl
        · exact absurd (List.mem_filter.mpr ⟨hyas, hyk⟩) (by simp [hnil])
    · have hmf : hasRankEq k a = false := by
        cases hq : hasRankEq k a
        · rfl
        · exact absurd hq hm
      rw [List.filter_cons_of_neg (by simp [hmf])] at hx
      obtain ⟨hsel, hxk, huniq⟩ := ih (fun y hy => hall y (by simp [hy])) hx
      refine ⟨?_, hxk, ?_⟩
      · unfold selectRank
        rw [hitem]
        dsimp only
        rw [if_neg (by rw [← hra, hmf]; simp)]
        exact hsel
      · intro y hy hyk
        rcases List.mem_cons.mp hy with rfl | hyas
        · exact absurd hyk hm
        · exact huniq y hyas hyk

/-- C5 counterexample: a critic artifact whose single entry carries rank
5 is extracted and handed onward exactly as parsed — the rank invariant
`1..N` is false for it and nothing in the code checks it. -/
theorem ranks_unvalidated_cex :
    criticExtract cexRank5Text = .ok (.arr [idea5]) ∧
    ranksExactly [idea5] = false :=
  ⟨rfl, rfl⟩

/-- C5 (amended): neither the Evaluation stage nor the gate validates
rank values — the parsed list flows through unchecked, so ranks need not
be `1..N` (see the counterexample).  When the ranks *are* exactly
`1..N`, selecting any rank `k` in range succeeds and returns the unique
entry with that rank. -/
theorem selection_unique_of_ranksExactly (l : List Json) (k : Nat)
    (h : ranksExactly l = true) (h1 : 1 ≤ k) (h2 : k ≤ l.length) :
    ∃ x, selectRank l (k : Int) = .ok x ∧ hasRankEq (k : Int) x = true ∧
      ∀ y ∈ l, hasRankEq (k : Int) y = true → y = x := by
  unfold ranksExactly at h
  rw [Bool.and_eq_true, List.all_eq_true, List.all_eq_true] at h
  obtain ⟨hall, hcnt⟩ := h
  have hmem : k - 1 ∈ List.range l.length := List.mem_range.mpr (by omega)
  have hcount : l.countP (hasRankEq (((k - 1 : Nat) : Int) + 1)) = 1 :=
    of_decide_eq_true (hcnt (k - 1) hmem)
  have hcast : ((k - 1 : Nat) : Int) + 1 = (k : Int) := by omega
  rw [hcast] at hcount
  rw [List.countP_eq_length_filter] at hcount
  obtain ⟨x, hx⟩ := List.length_eq_one.mp hcount
  exact ⟨x, selectRank_of_filter l (k : Int) x hall hx⟩

/-- C5 witness: a list with ranks 2, 1, 3 satisfies the invariant, and
selecting rank 2 returns the unique rank-2 entry. -/
theorem selection_unique_witness :
    ranksExactly [idea2, idea1, idea3] = true ∧
    ∃ x, selectRank [idea2, idea1, idea3] ((2 : Nat) : Int) = .ok x ∧
      hasRankEq ((2 : Nat) : Int) x = true ∧
      ∀ y ∈ [idea2, idea1, idea3], hasRankEq ((2 : Nat) : Int) y = true → y = x :=
  ⟨rfl, selection_unique_of_ranksExactly [idea2, idea1, idea3] 2 rfl
    (by decide) (by decide)⟩

theorem chooseLoop_skips_junk (ideas : List Json) (junk : List (List Char))
    (good : List Char) (rest : List (List Char)) (k : Int) (chosen : Json)
    (hjunk : ∀ line ∈ junk,
      ¬(pyStrip line = "1".data ∨ pyStrip line = "2".data ∨ pyStrip line = "3".data))
    (hk : k = 1 ∨ k = 2 ∨ k = 3)
    (hgood : pyStrip good = (toString k).data)
    (hsel : selectRank ideas k = .ok chosen) :
    chooseLoop ideas (junk ++ good :: rest)
      = .ok (chosen, rest, [.wroteChosen chosen]) := by
  induction junk with
  | nil =>
    have hcond : pyStrip good = "1".data ∨ pyStrip good = "2".data ∨
        pyStrip good = "3".data := by
      rcases hk with hk | hk | hk <;> subst hk <;> rw [hgood] <;> decide
    have hkk : (if pyStrip good = "1".data then (1 : Int)
        else if pyStrip good = "2".data then 2 else 3) = k := by
      rcases hk with hk | hk | hk <;> subst hk <;> rw [hgood] <;> decide
    rw [List.nil_append]
    unfold chooseLoop
    dsimp only
    rw [if_pos hcond, hkk, hsel]
  | cons l ls ih =>
    rw [List.cons_append]
    unfold chooseLoop
    dsimp only
    rw [if_neg (hjunk l (by simp))]
    exact ih (fun x hx => hjunk x (by simp [hx]))

/-- C7: the selection gate accepts only the exact stripped tokens `1`,
`2`, `3`, re-prompting on any other line; once a valid token `k` is
entered and an entry with rank `k` exists, that entry is persisted as
the Chosen Idea artifact and returned, with the remaining input left
untouched. -/
theorem selection_gate_behavior (ideas : List Json) (junk : List (List Char))
    (good : List Char) (rest : List (List Char)) (k : Int) (chosen : Json)
    (hdisp : displayIdeas ideas = .ok ())
    (hjunk : ∀ line ∈ junk,
      ¬(pyStrip line = "1".data ∨ pyStrip line = "2".data ∨ pyStrip line = "3".data))
    (hk : k = 1 ∨ k = 2 ∨ k = 3)
    (hgood : pyStrip good = (toString k).data)
    (hsel : selectRank ideas k = .ok chosen) :
    promptIdeaChoice (.arr ideas) (junk ++ good :: rest)
      = .ok (chosen, rest, [.wroteChosen chosen]) := by
  unfold promptIdeaChoice
  dsimp only
  rw [hdisp]
  exact chooseLoop_skips_junk ideas junk good rest k chosen hjunk hk hgood hsel

/-- C7 witness: the spec scenario — the operator types `4`, is
re-prompted, then types `2`; the rank-2 entry is persisted and
returned. -/
theorem selection_gate_behavior_witness :
    selectRank [idea1, idea2, idea3] 2 = .ok idea2 ∧
    promptIdeaChoice (.arr [idea1, idea2, idea3]) ["4".data, "2".data]
      = .ok (idea2, [], [.wroteChosen idea2]) :=
  ⟨rfl, selection_gate_behavior [idea1, idea2, idea3] ["4".data] "2".data [] 2
    idea2 rfl (by decide) (Or.inr (Or.inl rfl)) rfl rfl⟩

theorem selectRank_exhausted (l : List Json) (k : Int)
    (hall : ∀ y ∈ l, (rankOf? y).isSome = true)
    (hnone : ∀ y ∈ l, hasRankEq k y = false) :
    selectRank l k = .error (.err "StopIteration".data []) := by
  induction l with
  | nil => rfl
  | cons a as ih =>
    obtain ⟨v, hv⟩ := Option.isSome_iff_exists.mp (hall a (by simp))
    have hitem : pyItem a (cp "rank") = .ok v := pyItem_rank_of_rankOf? a v hv
    have hra : pyEqInt v k = false := by
      have := hnone a (by simp)
      unfold hasRankEq at this
      rwa [hv] at this
    unfold selectRank
    rw [hitem]
    dsimp only
    rw [if_neg (by simp [hra])]
    exact ih (fun y hy => hall y (by simp [hy])) (fun y hy => hnone y (by simp [hy]))

/-- C10: when the operator enters a valid token `k` but no entry's
`rank` compares equal to the integer `k` (for example ranks stored as
strings, or ranks outside `1..3`), the lookup raises `StopIteration`
out of the gate instead of re-prompting — the remaining input `rest` is
never consumed, whatever it is.  (That the Evaluation stage never
establishes the rank precondition is the C5 counterexample.) -/
theorem selection_gate_stopiteration (ideas : List Json) (line : List Char)
    (rest : List (List Char)) (k : Int)
    (hdisp : displayIdeas ideas = .ok ())
    (hall : ∀ y ∈ ideas, (rankOf? y).isSome = true)
    (hk : k = 1 ∨ k = 2 ∨ k = 3)
    (hline : pyStrip line = (toString k).data)
    (hnone : ∀ y ∈ ideas, hasRankEq k y = false) :
    promptIdeaChoice (.arr ideas) (line :: rest)
      = .error (.err "StopIteration".data []) := by
  have hcond : pyStrip line = "1".data ∨ pyStrip line = "2".data ∨
      pyStrip line = "3".data := by
    rcases hk with hk | hk | hk <;> subst hk <;> rw [hline] <;> decide
  have hkk : (if pyStrip line = "1".data then (1 : Int)
      else if pyStrip line = "2".data then 2 else 3) = k := by
    rcases hk with hk | hk | hk <;> subst hk <;> rw [hline] <;> decide
  unfold promptIdeaChoice
  dsimp only
  rw [hdisp]
  unfold chooseLoop
  dsimp only
  rw [if_pos hcond, hkk, selectRank_exhausted ideas k hall hnone]

/-- C10 witness: ranks stored as the strings "1", "2", "3" — the
operator's `2` never compares equal to a string, so the gate raises
`StopIteration` rather than re-prompting. -/
theorem selection_gate_stopiteration_witness :
    (∀ y ∈ [ideaS1, ideaS2, ideaS3], hasRankEq 2 y = false) ∧
    promptIdeaChoice (.arr [ideaS1, ideaS2, ideaS3]) ["2".data, "3".data]
      = .error (.err "StopIteration".data []) := by
  have hnone : ∀ y ∈ [ideaS1, ideaS2, ideaS3], hasRankEq 2 y = false := by
    intro y hy
    rcases (by simpa using hy : y = ideaS1 ∨ y = ideaS2 ∨ y = ideaS3)
      with rfl | rfl | rfl <;> rfl
  refine ⟨hnone, selection_gate_stopiteration [ideaS1, ideaS2, ideaS3] "2".data
    ["3".data] 2 rfl ?_ (Or.inr (Or.inl rfl)) rfl hnone⟩
  intro y hy
  rcases (by simpa using hy : y = ideaS1 ∨ y = ideaS2 ∨ y = ideaS3)
    with rfl | rfl | rfl <;> rfl

/-- C8 counterexample: a Reddit network failure during the per-subreddit
fetch (credentials present, client healthy) is swallowed by the inner
`try`: the adapter returns an *empty* list — not a single-element
error-marker record as the claim requires for "any failure". -/
theorem adapter_marker_cex :
    envRedditTimeout.fetch "startups".data = .error "request timed out".data ∧
    redditRun envRedditTimeout "startups".data = .arr [] ∧
    ∀ m : List Char, Json.arr [] ≠ errorMarker "reddit" m := by
  refine ⟨rfl, rfl, ?_⟩
  intro m hm
  simp [errorMarker] at hm

/-- C8 (amended): the three adapters never raise (each embedding is a
total function).  Missing/empty credentials short-circuit to the
single-element source-tagged marker with no network activity (the result
is unchanged under any replacement of the network fields); a failed
Reddit client construction, any ProductHunt request or processing
failure, and a Twitter failure of *both* paths each yield the marker.
However a Reddit per-subreddit fetch failure is only skipped — when all
subreddits fail the adapter returns an empty, marker-free list — and a
Twitter module-path failure (of either kind) first falls back to the
subprocess path. -/
theorem adapters_degrade_locally :
    (∀ (env : RedditEnv) (subs : List Char),
      (strFalsy env.clientId ∨ strFalsy env.clientSecret) →
        redditRun env subs
            = errorMarker "reddit" "REDDIT_CLIENT_ID/SECRET not set".data ∧
          ∀ init2 fetch2,
            redditRun { env with clientInit := init2, fetch := fetch2 } subs
              = redditRun env subs) ∧
    (∀ (env : RedditEnv) (subs e : List Char),
      ¬(strFalsy env.clientId ∨ strFalsy env.clientSecret) →
      env.clientInit = .error e →
        redditRun env subs = errorMarker "reddit" e) ∧
    (∀ (env : RedditEnv) (subs : List Char),
      ¬(strFalsy env.clientId ∨ strFalsy env.clientSecret) →
      env.clientInit = .ok () →
      (∀ s, ∃ e, env.fetch s = .error e) →
        redditRun env subs = .arr []) ∧
    (∀ env : PHEnv, strFalsy env.apiKey →
        phRun env = errorMarker "producthunt" "PRODUCTHUNT_API_KEY not set".data ∧
        ∀ http2, phRun { env with http := http2 } = phRun env) ∧
    (∀ (env : PHEnv) (e : List Char), ¬ strFalsy env.apiKey = true →
      env.http = .error e →
        phRun env = errorMarker "producthunt" e) ∧
    (∀ (env : PHEnv) (body : Json) (e : List Char), ¬ strFalsy env.apiKey = true →
      env.http = .ok body → phExtract body = .error e →
        phRun env = errorMarker "producthunt" e) ∧
    (∀ (env : TwEnv) (exc : TwModuleExc) (e : List Char),
      env.moduleResult = .error exc → env.subprocess = .error e →
        twitterRun env = errorMarker "twitter" e) ∧
    (∀ (env : TwEnv) (exc : TwModuleExc) (lines : List (List Char)),
      env.moduleResult = .error exc → env.subprocess = .ok lines →
        twitterRun env = .arr (lines.filterMap twLineRecord)) := by
  refine ⟨?_, ?_, ?_, ?_, ?_, ?_, ?_, ?_⟩
  · intro env subs hcred
    exact ⟨by simp [redditRun, hcred], fun init2 fetch2 => by
      simp [redditRun, hcred]⟩
  · intro env subs e hcred hinit
    simp [redditRun, hcred, hinit]
  · intro env subs hcred hinit hfetch
    simp only [redditRun, if_neg hcred, hinit]
    congr 1
    rw [List.flatten_eq_nil_iff]
    intro l hl
    rw [List.mem_map] at hl
    obtain ⟨s0, -, hs0⟩ := hl
    obtain ⟨e, he⟩ := hfetch (pyStrip s0)
    rw [← hs0, he]
  · intro env hkey
    exact ⟨by simp [phRun, hkey], fun http2 => by simp [phRun, hkey]⟩
  · intro env e hkey hhttp
    simp [phRun, hkey, hhttp]
  · intro env body e hkey hhttp hext
    simp [phRun, hkey, hhttp, hext]
  · intro env exc e hmod hsub
    simp [twitterRun, hmod, hsub]
  · intro env exc lines hmod hsub
    simp [twitterRun, hmod, hsub]

/-- C8 witness: missing Reddit credentials, a missing ProductHunt key,
and a Twitter world where the module import and the subprocess both
fail. -/
theorem adapters_degrade_locally_witness :
    redditRun ⟨none, none, .ok (), fun _ => .ok []⟩ "startups".data
      = errorMarker "reddit" "REDDIT_CLIENT_ID/SECRET not set".data ∧
    phRun ⟨none, .ok .null⟩
      = errorMarker "producthunt" "PRODUCTHUNT_API_KEY not set".data ∧
    twitterRun ⟨.error .importError, .error "snscrape missing".data⟩
      = errorMarker "twitter" "snscrape missing".data :=
  ⟨(adapters_degrade_locally.1 ⟨none, none, .ok (), fun _ => .ok []⟩
      "startups".data (Or.inl rfl)).1,
   (adapters_degrade_locally.2.2.2.1 ⟨none, .ok .null⟩ rfl).1,
   adapters_degrade_locally.2.2.2.2.2.2.1 ⟨.error .importError,
      .error "snscrape missing".data⟩ .importError "snscrape missing".data
      rfl rfl⟩

end TrendToProduct
